import Mathlib

/-!
Verification of the chem-lab-dtk data model (src/app/models.py) against its
natural-language specification.

The repository source is a declarative SQLModel schema: enumerations, entity
tables and validation-only update shapes.  The enumerations, entity fields and
their defaults below are translated directly from src/app/models.py.  The
spec additionally describes an Equipment Ledger, an Availability Checker and a
Loan Lifecycle Engine that the repository does not implement; those operations
are modelled from the spec text (sections 4.1-4.3, 6, 7), as marked on each
definition.  Datetime bookkeeping fields (created_at, updated_at), JSON
metadata columns and Decimal money fields are modelled as integers where they
matter and omitted where no claim mentions them.
-/

/-- User roles, from src/app/models.py class UserRole (str, Enum). -/
inductive UserRole
  | admin
  | lab_head
  | lab_assistant
  | lecturer
  | student
  deriving DecidableEq, Repr, Fintype

/-- String value of each UserRole member, from src/app/models.py lines 9-14. -/
def UserRole.value : UserRole → String
  | .admin => "admin"
  | .lab_head => "lab_head"
  | .lab_assistant => "lab_assistant"
  | .lecturer => "lecturer"
  | .student => "student"

/-- Equipment status values, from src/app/models.py class EquipmentStatus. -/
inductive EquipmentStatus
  | available
  | borrowed
  | maintenance
  | damaged
  | retired
  deriving DecidableEq, Repr, Fintype

/-- String value of each EquipmentStatus member, src/app/models.py lines 24-29. -/
def EquipmentStatus.value : EquipmentStatus → String
  | .available => "available"
  | .borrowed => "borrowed"
  | .maintenance => "maintenance"
  | .damaged => "damaged"
  | .retired => "retired"

/-- Equipment condition values, from src/app/models.py class EquipmentCondition. -/
inductive EquipmentCondition
  | excellent
  | good
  | fair
  | poor
  | damaged
  deriving DecidableEq, Repr, Fintype

/-- Loan request status values, from src/app/models.py class LoanRequestStatus
(lines 40-47).  The source has exactly these seven members. -/
inductive LoanRequestStatus
  | pending
  | approved
  | rejected
  | checked_out
  | returned
  | overdue
  | cancelled
  deriving DecidableEq, Repr, Fintype

/-- String value of each LoanRequestStatus member, src/app/models.py lines 40-47. -/
def LoanRequestStatus.value : LoanRequestStatus → String
  | .pending => "pending"
  | .approved => "approved"
  | .rejected => "rejected"
  | .checked_out => "checked_out"
  | .returned => "returned"
  | .overdue => "overdue"
  | .cancelled => "cancelled"

/-- The list of all LoanRequestStatus members in source order. -/
def allLoanRequestStatuses : List LoanRequestStatus :=
  [.pending, .approved, .rejected, .checked_out, .returned, .overdue, .cancelled]

/-- The Equipment table, from src/app/models.py class Equipment (lines 148-186).
Field names and defaults follow the source: status defaults to AVAILABLE,
condition to GOOD, max_loan_duration_days to 7, requires_training and
is_consumable to False, quantity_available and quantity_total to 1,
minimum_stock_level to 0.  Quantities are Python ints, modelled as Int.
Timestamp, price and JSON metadata columns are omitted (no claim uses them). -/
structure Equipment where
  name : String
  code : String
  description : Option String := none
  brand : Option String := none
  model : Option String := none
  serial_number : Option String := none
  category_id : Int
  lab_id : Int
  status : EquipmentStatus := .available
  condition : EquipmentCondition := .good
  location_in_lab : Option String := none
  usage_instructions : Option String := none
  safety_notes : Option String := none
  max_loan_duration_days : Int := 7
  requires_training : Bool := false
  is_consumable : Bool := false
  quantity_available : Int := 1
  quantity_total : Int := 1
  minimum_stock_level : Int := 0
  deriving DecidableEq, Repr

/-- The spec's Equipment Ledger invariant (section 4.1):
0 ≤ quantity_available ≤ quantity_total. -/
def ledgerInvariant (e : Equipment) : Prop :=
  0 ≤ e.quantity_available ∧ e.quantity_available ≤ e.quantity_total

instance (e : Equipment) : Decidable (ledgerInvariant e) :=
  inferInstanceAs (Decidable (_ ∧ _))

/-- Errors the Equipment Ledger can raise, from spec section 4.1. -/
inductive LedgerError
  | InsufficientStock
  | EquipmentUnavailable
  deriving DecidableEq, Repr

/-- Modelled from the spec: the Equipment Ledger operation
reserve(equipment_id, qty) of section 4.1, which the repository does not
implement.  It decrements quantity_available by qty, fails with
InsufficientStock if the result would be negative, and fails with
EquipmentUnavailable if status is maintenance, damaged or retired. -/
def reserve (e : Equipment) (qty : Nat) : Except LedgerError Equipment :=
  if e.quantity_available < (qty : Int) then
    .error .InsufficientStock
  else if e.status = .maintenance ∨ e.status = .damaged ∨ e.status = .retired then
    .error .EquipmentUnavailable
  else
    .ok { e with quantity_available := e.quantity_available - (qty : Int) }

/-- Modelled from the spec: the Equipment Ledger operation
release(equipment_id, qty) of section 4.1, which the repository does not
implement.  It increments quantity_available, capped at quantity_total. -/
def release (e : Equipment) (qty : Nat) : Equipment :=
  { e with quantity_available := min (e.quantity_available + (qty : Int)) e.quantity_total }

/-- A single Equipment Ledger operation: a reserve or a release of a quantity. -/
inductive LedgerOp
  | reserveOp (qty : Nat)
  | releaseOp (qty : Nat)
  deriving DecidableEq, Repr

/-- Apply one ledger operation; a failed reserve leaves the row unchanged. -/
def applyLedgerOp (e : Equipment) : LedgerOp → Equipment
  | .reserveOp q =>
    match reserve e q with
    | .ok e' => e'
    | .error _ => e
  | .releaseOp q => release e q

/-- Run a sequence of ledger operations from an initial Equipment row. -/
def runLedgerOps (e : Equipment) (ops : List LedgerOp) : Equipment :=
  ops.foldl applyLedgerOp e

theorem reserve_preserves_invariant (e : Equipment) (q : Nat)
    (h : ledgerInvariant e) (e' : Equipment) (hr : reserve e q = .ok e') :
    ledgerInvariant e' := by
  unfold reserve at hr
  split at hr
  · exact absurd hr (by simp)
  · split at hr
    · exact absurd hr (by simp)
    · obtain ⟨h0, h1⟩ := h
      cases hr
      constructor <;> simp_all <;> omega

theorem release_preserves_invariant (e : Equipment) (q : Nat)
    (h : ledgerInvariant e) : ledgerInvariant (release e q) := by
  obtain ⟨h0, h1⟩ := h
  unfold release ledgerInvariant
  constructor <;> simp <;> omega

theorem applyLedgerOp_preserves_invariant (e : Equipment) (op : LedgerOp)
    (h : ledgerInvariant e) : ledgerInvariant (applyLedgerOp e op) := by
  cases op with
  | reserveOp q =>
    cases hr : reserve e q with
    | ok e' =>
      simpa [applyLedgerOp, hr] using reserve_preserves_invariant e q h e' hr
    | error err => simpa [applyLedgerOp, hr] using h
  | releaseOp q => exact release_preserves_invariant e q h

/-- Claim C1: for every equipment item and every sequence of Equipment Ledger
reserve and release operations, 0 ≤ quantity_available ≤ quantity_total holds
at all times: reserve never drives quantity_available negative and release
never raises it above quantity_total. -/
theorem c1_ledger_invariant_preserved (e : Equipment) (ops : List LedgerOp)
    (h : ledgerInvariant e) : ledgerInvariant (runLedgerOps e ops) := by
  induction ops generalizing e with
  | nil => exact h
  | cons op rest ih =>
    exact ih (applyLedgerOp e op) (applyLedgerOp_preserves_invariant e op h)

/-- A concrete equipment row using the source defaults for the optional
fields (status, condition, quantities are not supplied, as in
Equipment(name=..., code=..., category_id=..., lab_id=...)). -/
def freshEquipment : Equipment :=
  { name := "Beaker", code := "EQ-001", category_id := 1, lab_id := 1 }

/-- Witness for C1 at a concrete row and a concrete operation sequence. -/
theorem c1_ledger_invariant_preserved_witness :
    ledgerInvariant freshEquipment ∧
      ledgerInvariant (runLedgerOps freshEquipment
        [.reserveOp 1, .releaseOp 3, .reserveOp 5, .releaseOp 1]) :=
  ⟨by decide, c1_ledger_invariant_preserved freshEquipment
    [.reserveOp 1, .releaseOp 3, .reserveOp 5, .releaseOp 1] (by decide)⟩

/-- A requested time window.  The field finish models the window's exclusive
end bound (end is a reserved word).  Times are integer timestamps. -/
structure TimeWindow where
  start : Int
  finish : Int
  deriving DecidableEq, Repr

/-- Membership of an instant in a half-open window [start, finish). -/
def inWindow (w : TimeWindow) (t : Int) : Prop :=
  w.start ≤ t ∧ t < w.finish

instance (w : TimeWindow) (t : Int) : Decidable (inWindow w t) :=
  inferInstanceAs (Decidable (_ ∧ _))

/-- Modelled from the spec: the Availability Checker's pairwise conflict test
of section 4.2, which the repository does not implement.  An existing window
conflicts with a requested window exactly when
existing.start < end AND existing.end > start. -/
def windowsOverlap (existing w : TimeWindow) : Bool :=
  decide (existing.start < w.finish) && decide (existing.finish > w.start)

/-- Claim C3: the Availability Checker reports a conflict between two time
windows if and only if they overlap as half-open intervals — for nonempty
windows, exactly when some instant lies in both [start, end) intervals; in
particular [10:00,11:00) and [10:30,11:30) (in minutes: [600,660) and
[630,690)) conflict, while [10:00,11:00) and [11:00,12:00) do not. -/
theorem c3_overlap_halfopen :
    (∀ a b : TimeWindow, a.start < a.finish → b.start < b.finish →
      (windowsOverlap a b = true ↔ ∃ t : Int, inWindow a t ∧ inWindow b t)) ∧
    windowsOverlap ⟨600, 660⟩ ⟨630, 690⟩ = true ∧
    windowsOverlap ⟨600, 660⟩ ⟨660, 720⟩ = false := by
  refine ⟨?_, by decide, by decide⟩
  intro a b ha hb
  unfold windowsOverlap inWindow
  simp only [Bool.and_eq_true, decide_eq_true_eq]
  constructor
  · intro h
    exact ⟨max a.start b.start,
      ⟨le_max_left _ _, by omega⟩, ⟨le_max_right _ _, by omega⟩⟩
  · rintro ⟨t, ⟨h1, h2⟩, h3, h4⟩
    omega

/-- Witness for C3: the pairwise characterisation applied at the concrete
conflicting pair of the claim. -/
theorem c3_overlap_halfopen_witness :
    windowsOverlap ⟨600, 660⟩ ⟨630, 690⟩ = true ↔
      ∃ t : Int, inWindow ⟨600, 660⟩ t ∧ inWindow ⟨630, 690⟩ t :=
  c3_overlap_halfopen.1 ⟨600, 660⟩ ⟨630, 690⟩ (by decide) (by decide)

/-- The LoanRequest table, from src/app/models.py class LoanRequest
(lines 208-241).  Field names and defaults follow the source:
quantity_requested defaults to 1, status to PENDING, priority to 1, the
approval/checkout/return bookkeeping fields to None and both fees to 0.
Datetimes are integer timestamps; Decimal fees are modelled as Nat (the
configurable rate is a Nat, so fees stay whole numbers in the model). -/
structure LoanRequest where
  request_number : String
  user_id : Int
  equipment_id : Int
  quantity_requested : Nat := 1
  purpose : String
  requested_start_date : Int
  requested_end_date : Int
  status : LoanRequestStatus := .pending
  priority : Int := 1
  approved_by : Option Int := none
  approved_at : Option Int := none
  approval_notes : Option String := none
  rejected_reason : Option String := none
  actual_checkout_date : Option Int := none
  actual_return_date : Option Int := none
  checkout_condition : Option EquipmentCondition := none
  return_condition : Option EquipmentCondition := none
  checkout_notes : Option String := none
  return_notes : Option String := none
  late_fee : Nat := 0
  damage_fee : Nat := 0
  deriving DecidableEq, Repr

/-- A freshly created loan request: only the required columns are supplied,
every other column takes its source default (in particular status = pending). -/
def newLoanRequest (rn : String) (uid eqid : Int) (qty : Nat) (purpose : String)
    (start finish : Int) : LoanRequest :=
  { request_number := rn, user_id := uid, equipment_id := eqid,
    quantity_requested := qty, purpose := purpose,
    requested_start_date := start, requested_end_date := finish }

/-- The acting user for a lifecycle event: id plus role, as supplied by the
identity collaborator of spec section 6. -/
structure Actor where
  id : Int
  role : UserRole
  deriving DecidableEq, Repr

/-- Lifecycle events of the Loan Lifecycle Engine, from the transition table
of spec section 4.3 (single-stage approval, matching the source enum). -/
inductive LoanEvent
  | approve
  | reject
  | cancel
  | checkout
  | markOverdue
  | checkin
  deriving DecidableEq, Repr, Fintype

/-- Errors of the transition interface, spec sections 6 and 7. -/
inductive TransitionError
  | InvalidTransition
  | Forbidden
  | InsufficientStock
  | EquipmentUnavailable
  deriving DecidableEq, Repr

/-- Modelled from the spec: the "From" column of the transition table in
section 4.3, restricted to the source's single approved stage.  A status is a
valid source for an event exactly when the table lists it. -/
def validFrom (ev : LoanEvent) (s : LoanRequestStatus) : Bool :=
  match ev, s with
  | .approve, .pending => true
  | .reject, .pending => true
  | .reject, .approved => true
  | .cancel, .pending => true
  | .cancel, .approved => true
  | .checkout, .approved => true
  | .markOverdue, .checked_out => true
  | .checkin, .checked_out => true
  | .checkin, .overdue => true
  | _, _ => false

/-- Roles that may approve or reject, from the guards of spec section 4.3. -/
def approvalRole (r : UserRole) : Bool :=
  r == .lab_assistant || r == .lab_head || r == .admin

/-- Modelled from the spec: the role guards of the transition table in
section 4.3 — approve/reject need an approval role, cancel needs the
requester or an admin; checkout, overdue detection and checkin carry no role
guard in the table. -/
def eventAllowed (ev : LoanEvent) (actor : Actor) (loan : LoanRequest) : Bool :=
  match ev with
  | .approve => approvalRole actor.role
  | .reject => approvalRole actor.role
  | .cancel => actor.id == loan.user_id || actor.role == .admin
  | .checkout => true
  | .markOverdue => true
  | .checkin => true

/-- Seconds in a day, the granularity of the whole-day overage. -/
def secondsPerDay : Nat := 86400

/-- Whole days covering an overage, rounded up to the next day boundary. -/
def ceilDays (overage : Nat) : Nat :=
  (overage + (secondsPerDay - 1)) / secondsPerDay

/-- Days overdue of a return at time now against the requested end date:
zero when on time, otherwise the overage rounded up to whole days. -/
def daysOverdue (end_date now : Int) : Nat :=
  ceilDays (now - end_date).toNat

/-- Modelled from the spec: the late-fee policy of sections 4.3 and 8 —
fee = (configurable rate) × whole-day overage rounded up. -/
def lateFee (rate : Nat) (end_date now : Int) : Nat :=
  rate * daysOverdue end_date now

/-- Modelled from the spec: the Loan Lifecycle Engine's
transition(loan_id, event, actor_id, payload) of sections 4.3, 6 and 7, which
the repository does not implement.  The state check comes first (an event
from a status not listed in the table is InvalidTransition), then the role
guard (Forbidden), then the per-event effect: approve records the approver,
checkout reserves stock and marks the equipment borrowed, overdue detection
needs now past the end date, checkin releases stock, restores the equipment
status (or marks it damaged when the return is damaged) and computes the late
fee.  Free-text payload fields (notes, reasons) are not modelled.  rate is
the configurable late-fee rate; damaged_out tells whether the return reported
damage or a worsened condition. -/
def transition (rate : Nat) (eq : Equipment) (loan : LoanRequest)
    (ev : LoanEvent) (actor : Actor) (now : Int) (damaged_out : Bool) :
    Except TransitionError (Equipment × LoanRequest) :=
  if ¬ validFrom ev loan.status then .error .InvalidTransition
  else if ¬ eventAllowed ev actor loan then .error .Forbidden
  else
    match ev with
    | .approve =>
      .ok (eq, { loan with
        status := .approved
        approved_by := some actor.id
        approved_at := some now })
    | .reject => .ok (eq, { loan with status := .rejected })
    | .cancel => .ok (eq, { loan with status := .cancelled })
    | .checkout =>
      if now < loan.requested_start_date then .error .InvalidTransition
      else
        match reserve eq loan.quantity_requested with
        | .error .InsufficientStock => .error .InsufficientStock
        | .error .EquipmentUnavailable => .error .EquipmentUnavailable
        | .ok eq' =>
          .ok ({ eq' with status := .borrowed },
            { loan with
              status := .checked_out
              actual_checkout_date := some now })
    | .markOverdue =>
      if now ≤ loan.requested_end_date then .error .InvalidTransition
      else .ok (eq, { loan with status := .overdue })
    | .checkin =>
      let eq' := release eq loan.quantity_requested
      .ok ({ eq' with status := if damaged_out then .damaged else .available },
        { loan with
          status := .returned
          late_fee := lateFee rate loan.requested_end_date now
          actual_return_date := some now })

/-- Run a transition against the store: an error leaves the persisted rows
exactly as they were, a success commits the new rows. -/
def runTransition (rate : Nat) (eq : Equipment) (loan : LoanRequest)
    (ev : LoanEvent) (actor : Actor) (now : Int) (damaged_out : Bool) :
    Equipment × LoanRequest × Option TransitionError :=
  match transition rate eq loan ev actor now damaged_out with
  | .error err => (eq, loan, some err)
  | .ok (eq', loan') => (eq', loan', none)

/-- Target status of each successful lifecycle event. -/
def nextStatus : LoanEvent → LoanRequestStatus
  | .approve => .approved
  | .reject => .rejected
  | .cancel => .cancelled
  | .checkout => .checked_out
  | .markOverdue => .overdue
  | .checkin => .returned

/-- Terminal loan statuses: no event accepts them as a source. -/
def terminalStatus (s : LoanRequestStatus) : Bool :=
  s == .returned || s == .cancelled || s == .rejected

theorem transition_invalid_of_not_validFrom (rate : Nat) (eq : Equipment)
    (loan : LoanRequest) (ev : LoanEvent) (actor : Actor) (now : Int)
    (dmg : Bool) (h : validFrom ev loan.status = false) :
    transition rate eq loan ev actor now dmg = .error .InvalidTransition := by
  simp [transition, h]

theorem runTransition_of_error (rate : Nat) (eq : Equipment)
    (loan : LoanRequest) (ev : LoanEvent) (actor : Actor) (now : Int)
    (dmg : Bool) (err : TransitionError)
    (h : transition rate eq loan ev actor now dmg = .error err) :
    runTransition rate eq loan ev actor now dmg = (eq, loan, some err) := by
  simp [runTransition, h]

theorem reserve_ok_spec (e : Equipment) (q : Nat) (e' : Equipment)
    (hr : reserve e q = .ok e') :
    (q : Int) ≤ e.quantity_available ∧
    e'.quantity_available = e.quantity_available - (q : Int) ∧
    e'.quantity_total = e.quantity_total ∧
    e'.status = e.status := by
  unfold reserve at hr
  split at hr
  · simp at hr
  · split at hr
    · simp at hr
    · rename_i hlt _
      simp only [Except.ok.injEq] at hr
      subst hr
      exact ⟨by omega, rfl, rfl, rfl⟩

theorem transition_ok_frame (rate : Nat) (eq : Equipment) (loan : LoanRequest)
    (ev : LoanEvent) (actor : Actor) (now : Int) (dmg : Bool)
    (eq' : Equipment) (loan' : LoanRequest)
    (htr : transition rate eq loan ev actor now dmg = .ok (eq', loan')) :
    validFrom ev loan.status = true ∧
    loan'.status = nextStatus ev ∧
    loan'.quantity_requested = loan.quantity_requested ∧
    loan'.requested_end_date = loan.requested_end_date ∧
    eq'.quantity_total = eq.quantity_total ∧
    (ev ≠ .checkin → loan'.late_fee = loan.late_fee) ∧
    ((ev = .approve ∨ ev = .reject ∨ ev = .cancel ∨ ev = .markOverdue) → eq' = eq) := by
  cases ev with
  | approve =>
    simp only [transition] at htr
    split at htr
    · simp at htr
    · split at htr
      · simp at htr
      · rename_i hvf _
        simp only [Except.ok.injEq, Prod.mk.injEq] at htr
        obtain ⟨h1, h2⟩ := htr
        subst h1; subst h2
        exact ⟨by simpa using hvf, rfl, rfl, rfl, rfl, fun _ => rfl, fun _ => rfl⟩
  | reject =>
    simp only [transition] at htr
    split at htr
    · simp at htr
    · split at htr
      · simp at htr
      · rename_i hvf clear
        simp only [Except.ok.injEq, Prod.mk.injEq] at htr
        obtain ⟨h1, h2⟩ := htr
        subst h1; subst h2
        exact ⟨by simpa using hvf, rfl, rfl, rfl, rfl, fun _ => rfl, fun _ => rfl⟩
  | cancel =>
    simp only [transition] at htr
    split at htr
    · simp at htr
    · split at htr
      · simp at htr
      · rename_i hvf clear
        simp only [Except.ok.injEq, Prod.mk.injEq] at htr
        obtain ⟨h1, h2⟩ := htr
        subst h1; subst h2
        exact ⟨by simpa using hvf, rfl, rfl, rfl, rfl, fun _ => rfl, fun _ => rfl⟩
  | checkout =>
    simp only [transition] at htr
    split at htr
    · simp at htr
    · split at htr
      · simp at htr
      · rename_i hvf clear
        split at htr
        · simp at htr
        · split at htr
          · simp at htr
          · simp at htr
          · rename_i e2 hres
            simp only [Except.ok.injEq, Prod.mk.injEq] at htr
            obtain ⟨h1, h2⟩ := htr
            subst h1; subst h2
            obtain ⟨hq, ha, ht, hs⟩ := reserve_ok_spec eq loan.quantity_requested e2 hres
            refine ⟨by simpa using hvf, rfl, rfl, rfl, by simpa using ht,
              fun _ => rfl, by simp⟩
  | markOverdue =>
    simp only [transition] at htr
    split at htr
    · simp at htr
    · split at htr
      · simp at htr
      · rename_i hvf clear
        split at htr
        · simp at htr
        · simp only [Except.ok.injEq, Prod.mk.injEq] at htr
          obtain ⟨h1, h2⟩ := htr
          subst h1; subst h2
          exact ⟨by simpa using hvf, rfl, rfl, rfl, rfl, fun _ => rfl, fun _ => rfl⟩
  | checkin =>
    simp only [transition] at htr
    split at htr
    · simp at htr
    · split at htr
      · simp at htr
      · rename_i hvf clear
        simp only [Except.ok.injEq, Prod.mk.injEq] at htr
        obtain ⟨h1, h2⟩ := htr
        subst h1; subst h2
        refine ⟨by simpa using hvf, rfl, rfl, rfl, by simp [release], by simp, by simp⟩

theorem transition_checkout_ok (rate : Nat) (eq : Equipment) (loan : LoanRequest)
    (actor : Actor) (now : Int) (dmg : Bool) (eq' : Equipment) (loan' : LoanRequest)
    (htr : transition rate eq loan .checkout actor now dmg = .ok (eq', loan')) :
    loan.status = .approved ∧
    (loan.quantity_requested : Int) ≤ eq.quantity_available ∧
    eq'.quantity_available = eq.quantity_available - (loan.quantity_requested : Int) ∧
    eq'.quantity_total = eq.quantity_total ∧
    eq'.status = .borrowed := by
  simp only [transition] at htr
  split at htr
  · simp at htr
  · split at htr
    · simp at htr
    · rename_i hvf hok
      split at htr
      · simp at htr
      · split at htr
        · simp at htr
        · simp at htr
        · rename_i e2 hres
          simp only [Except.ok.injEq, Prod.mk.injEq] at htr
          obtain ⟨h1, h2⟩ := htr
          subst h1; subst h2
          obtain ⟨hq, ha, ht, hs⟩ := reserve_ok_spec eq loan.quantity_requested e2 hres
          have hstat : loan.status = .approved := by
            rcases s : loan.status <;> simp [validFrom, s] at hvf <;> rfl
          exact ⟨hstat, hq, by simpa using ha, by simpa using ht, by simp⟩

theorem transition_checkin_ok (rate : Nat) (eq : Equipment) (loan : LoanRequest)
    (actor : Actor) (now : Int) (dmg : Bool) (eq' : Equipment) (loan' : LoanRequest)
    (htr : transition rate eq loan .checkin actor now dmg = .ok (eq', loan')) :
    (loan.status = .checked_out ∨ loan.status = .overdue) ∧
    eq'.quantity_available =
      min (eq.quantity_available + (loan.quantity_requested : Int)) eq.quantity_total ∧
    eq'.quantity_total = eq.quantity_total ∧
    loan'.status = .returned ∧
    loan'.late_fee = lateFee rate loan.requested_end_date now := by
  simp only [transition] at htr
  split at htr
  · simp at htr
  · split at htr
    · simp at htr
    · rename_i hvf hok
      simp only [Except.ok.injEq, Prod.mk.injEq] at htr
      obtain ⟨h1, h2⟩ := htr
      subst h1; subst h2
      have hstat : loan.status = .checked_out ∨ loan.status = .overdue := by
        rcases s : loan.status <;> simp [validFrom, s] at hvf <;> simp
      exact ⟨hstat, by simp [release], by simp [release], rfl, rfl⟩

theorem transition_ok_invariant (rate : Nat) (eq : Equipment) (loan : LoanRequest)
    (ev : LoanEvent) (actor : Actor) (now : Int) (dmg : Bool)
    (eq' : Equipment) (loan' : LoanRequest) (hinv : ledgerInvariant eq)
    (htr : transition rate eq loan ev actor now dmg = .ok (eq', loan')) :
    ledgerInvariant eq' := by
  obtain ⟨h0, h1⟩ := hinv
  cases ev with
  | checkout =>
    obtain ⟨_, hq, ha, ht, _⟩ := transition_checkout_ok rate eq loan actor now dmg eq' loan' htr
    exact ⟨by omega, by omega⟩
  | checkin =>
    obtain ⟨_, ha, ht, _, _⟩ := transition_checkin_ok rate eq loan actor now dmg eq' loan' htr
    constructor
    · rw [ha]; omega
    · rw [ha, ht]; omega
  | approve =>
    obtain ⟨_, _, _, _, _, _, hframe⟩ :=
      transition_ok_frame rate eq loan .approve actor now dmg eq' loan' htr
    rw [hframe (Or.inl rfl)]; exact ⟨h0, h1⟩
  | reject =>
    obtain ⟨_, _, _, _, _, _, hframe⟩ :=
      transition_ok_frame rate eq loan .reject actor now dmg eq' loan' htr
    rw [hframe (Or.inr (Or.inl rfl))]; exact ⟨h0, h1⟩
  | cancel =>
    obtain ⟨_, _, _, _, _, _, hframe⟩ :=
      transition_ok_frame rate eq loan .cancel actor now dmg eq' loan' htr
    rw [hframe (Or.inr (Or.inr (Or.inl rfl)))]; exact ⟨h0, h1⟩
  | markOverdue =>
    obtain ⟨_, _, _, _, _, _, hframe⟩ :=
      transition_ok_frame rate eq loan .markOverdue actor now dmg eq' loan' htr
    rw [hframe (Or.inr (Or.inr (Or.inr rfl)))]; exact ⟨h0, h1⟩

/-- A student requester, used as a concrete actor in witnesses. -/
def sampleStudent : Actor := { id := 7, role := .student }

/-- A lab assistant, used as a concrete approving actor in witnesses. -/
def sampleStaff : Actor := { id := 3, role := .lab_assistant }

/-- A concrete loan request by the student for two units of equipment over
the window [0, 86400). -/
def sampleLoan : LoanRequest :=
  newLoanRequest "LR-2025-001" 7 1 2 "acid titration practical" 0 86400

/-- The sample loan after approval. -/
def approvedSampleLoan : LoanRequest := { sampleLoan with status := .approved }

/-- The sample loan after cancellation. -/
def cancelledSampleLoan : LoanRequest := { sampleLoan with status := .cancelled }

/-- Claim C5: a transition attempted from a state not listed as a valid From
state for its event returns InvalidTransition; in particular a second cancel
on an already-cancelled loan returns InvalidTransition and leaves the
persisted rows untouched. -/
theorem c5_invalid_transition :
    (∀ (rate : Nat) (eq : Equipment) (loan : LoanRequest) (ev : LoanEvent)
      (actor : Actor) (now : Int) (dmg : Bool),
      validFrom ev loan.status = false →
      transition rate eq loan ev actor now dmg = .error .InvalidTransition) ∧
    (∀ (rate : Nat) (eq : Equipment) (loan : LoanRequest) (actor : Actor)
      (now : Int) (dmg : Bool),
      loan.status = .cancelled →
      runTransition rate eq loan .cancel actor now dmg =
        (eq, loan, some .InvalidTransition)) := by
  constructor
  · exact fun rate eq loan ev actor now dmg h =>
      transition_invalid_of_not_validFrom rate eq loan ev actor now dmg h
  · intro rate eq loan actor now dmg h
    exact runTransition_of_error _ _ _ _ _ _ _ _
      (transition_invalid_of_not_validFrom _ _ _ _ _ _ _ (by rw [h]; rfl))

/-- Witness for C5: the concrete second cancel on an already-cancelled loan. -/
theorem c5_invalid_transition_witness :
    runTransition 10 freshEquipment cancelledSampleLoan .cancel sampleStudent 5 false =
      (freshEquipment, cancelledSampleLoan, some .InvalidTransition) :=
  c5_invalid_transition.2 10 freshEquipment cancelledSampleLoan sampleStudent 5 false rfl

/-- Claim C4: every error result of the Loan Lifecycle Engine is atomic —
a transition returning InvalidTransition or Forbidden (or any other error)
commits no state change; a checkout failing with InsufficientStock leaves the
loan status at its pre-checkout value and the equipment row untouched; and
every committed transition keeps the equipment consistent with the Equipment
Ledger invariant. -/
theorem c4_error_atomicity :
    (∀ (rate : Nat) (eq : Equipment) (loan : LoanRequest) (ev : LoanEvent)
      (actor : Actor) (now : Int) (dmg : Bool) (err : TransitionError),
      transition rate eq loan ev actor now dmg = .error err →
      runTransition rate eq loan ev actor now dmg = (eq, loan, some err)) ∧
    (∀ (rate : Nat) (eq : Equipment) (loan : LoanRequest) (actor : Actor)
      (now : Int) (dmg : Bool),
      transition rate eq loan .checkout actor now dmg = .error .InsufficientStock →
      (runTransition rate eq loan .checkout actor now dmg).2.1.status = loan.status ∧
      (runTransition rate eq loan .checkout actor now dmg).1 = eq) ∧
    (∀ (rate : Nat) (eq : Equipment) (loan : LoanRequest) (ev : LoanEvent)
      (actor : Actor) (now : Int) (dmg : Bool) (eq' : Equipment) (loan' : LoanRequest),
      ledgerInvariant eq →
      transition rate eq loan ev actor now dmg = .ok (eq', loan') →
      ledgerInvariant eq') := by
  refine ⟨?_, ?_, ?_⟩
  · intro rate eq loan ev actor now dmg err h
    exact runTransition_of_error rate eq loan ev actor now dmg err h
  · intro rate eq loan actor now dmg h
    rw [runTransition_of_error rate eq loan .checkout actor now dmg .InsufficientStock h]
    exact ⟨rfl, rfl⟩
  · intro rate eq loan ev actor now dmg eq' loan' hinv htr
    exact transition_ok_invariant rate eq loan ev actor now dmg eq' loan' hinv htr

/-- Witness for C4: a concrete checkout of two units against a single-unit
equipment row fails with InsufficientStock and commits nothing. -/
theorem c4_error_atomicity_witness :
    runTransition 10 freshEquipment approvedSampleLoan .checkout sampleStaff 0 false =
      (freshEquipment, approvedSampleLoan, some .InsufficientStock) :=
  c4_error_atomicity.1 10 freshEquipment approvedSampleLoan .checkout sampleStaff 0
    false .InsufficientStock rfl

/-- The loan state space as the spec's section 4.3 state machine names it:
pending, approved_by_assistant, approved_by_head, checked_out, overdue, a
terminal checked_in/returned state, cancelled and rejected.  This follows the
spec's words, to be compared with the source enum LoanRequestStatus. -/
inductive SpecLoanState
  | pending
  | approved_by_assistant
  | approved_by_head
  | checked_out
  | overdue
  | checked_in
  | cancelled
  | rejected
  deriving DecidableEq, Repr, Fintype

/-- Rank of a loan status along the forward direction of the lifecycle:
terminal states rank last, and every legal transition strictly increases it. -/
def statusRank : LoanRequestStatus → Nat
  | .pending => 0
  | .approved => 1
  | .checked_out => 2
  | .overdue => 3
  | .rejected => 4
  | .cancelled => 4
  | .returned => 4

theorem statusRank_lt_nextStatus :
    ∀ (ev : LoanEvent) (s : LoanRequestStatus),
      validFrom ev s = true → statusRank s < statusRank (nextStatus ev) := by
  decide

theorem validFrom_terminal_false :
    ∀ (ev : LoanEvent) (s : LoanRequestStatus),
      terminalStatus s = true → validFrom ev s = false := by
  decide

/-- Counterexample to C2: the source enum LoanRequestStatus has seven members
and a single approved stage, while the spec's state machine names eight
states with a two-stage approval; no member of the source enum carries the
value approved_by_assistant or approved_by_head. -/
theorem c2_counterexample :
    Fintype.card LoanRequestStatus = 7 ∧
    Fintype.card SpecLoanState = 8 ∧
    ¬ (∃ s : LoanRequestStatus, s.value = "approved_by_assistant") ∧
    ¬ (∃ s : LoanRequestStatus, s.value = "approved_by_head") ∧
    (∃ s : LoanRequestStatus, s.value = "approved") := by
  decide

/-- The sample loan sitting in the overdue monitoring state. -/
def overdueSampleLoan : LoanRequest := { sampleLoan with status := .overdue }

/-- Claim C2 (amended): the loan state space is the source's seven-member
LoanRequestStatus with a single approved stage.  A loan is created pending;
every committed transition moves strictly forward in rank from a listed From
state to the event's target; returned, cancelled and rejected are terminal
(every further event is InvalidTransition); overdue is a non-terminal
monitoring state that still resolves to returned by checkin. -/
theorem c2_state_machine :
    (∀ (rn : String) (uid eqid : Int) (qty : Nat) (purpose : String)
      (start finish : Int),
      (newLoanRequest rn uid eqid qty purpose start finish).status = .pending) ∧
    (∀ (rate : Nat) (eq : Equipment) (loan : LoanRequest) (ev : LoanEvent)
      (actor : Actor) (now : Int) (dmg : Bool) (eq' : Equipment) (loan' : LoanRequest),
      transition rate eq loan ev actor now dmg = .ok (eq', loan') →
      validFrom ev loan.status = true ∧
      loan'.status = nextStatus ev ∧
      statusRank loan.status < statusRank loan'.status) ∧
    (∀ (rate : Nat) (eq : Equipment) (loan : LoanRequest) (ev : LoanEvent)
      (actor : Actor) (now : Int) (dmg : Bool),
      terminalStatus loan.status = true →
      transition rate eq loan ev actor now dmg = .error .InvalidTransition) ∧
    terminalStatus .overdue = false ∧
    (runTransition 10 freshEquipment overdueSampleLoan .checkin sampleStudent
      200000 false).2.1.status = .returned := by
  refine ⟨fun _ _ _ _ _ _ _ => rfl, ?_, ?_, rfl, rfl⟩
  · intro rate eq loan ev actor now dmg eq' loan' htr
    obtain ⟨hvf, hst, _⟩ := transition_ok_frame rate eq loan ev actor now dmg eq' loan' htr
    refine ⟨hvf, hst, ?_⟩
    rw [hst]
    exact statusRank_lt_nextStatus ev loan.status hvf
  · intro rate eq loan ev actor now dmg h
    exact transition_invalid_of_not_validFrom rate eq loan ev actor now dmg
      (validFrom_terminal_false ev loan.status h)

/-- Witness for C2: a concrete committed transition — the staff approval of
the freshly created sample loan — moves it forward from pending to approved. -/
theorem c2_state_machine_witness :
    validFrom .approve sampleLoan.status = true ∧
    (approvedSampleLoan.status = nextStatus .approve ∧
      statusRank sampleLoan.status < statusRank approvedSampleLoan.status) := by
  have h := c2_state_machine.2.1 10 freshEquipment sampleLoan .approve sampleStaff 0 false
    freshEquipment { sampleLoan with status := .approved, approved_by := some (3 : Int), approved_at := some (0 : Int) } rfl
  exact ⟨h.1, h.2.1, h.2.2.trans_eq rfl⟩

/-- Claim C6: a loan executed through the full lifecycle — created pending,
approved, checked out, checked in — leaves the equipment's quantity_available
at its pre-reservation value: the release at check-in, capped at
quantity_total, exactly undoes the reserve at checkout. -/
theorem c6_roundtrip_restores_quantity
    (rate : Nat) (eq : Equipment) (loan : LoanRequest)
    (aA aC aR : Actor) (t0 t1 t2 : Int) (dmg : Bool)
    (eq1 : Equipment) (loan1 : LoanRequest) (eq2 : Equipment) (loan2 : LoanRequest)
    (eq3 : Equipment) (loan3 : LoanRequest)
    (hinv : ledgerInvariant eq)
    (hcreated : loan.status = .pending)
    (h1 : transition rate eq loan .approve aA t0 false = .ok (eq1, loan1))
    (h2 : transition rate eq1 loan1 .checkout aC t1 false = .ok (eq2, loan2))
    (h3 : transition rate eq2 loan2 .checkin aR t2 dmg = .ok (eq3, loan3)) :
    eq3.quantity_available = eq.quantity_available := by
  obtain ⟨_, _, _, _, _, _, hfr1⟩ :=
    transition_ok_frame rate eq loan .approve aA t0 false eq1 loan1 h1
  have heq1 : eq1 = eq := hfr1 (Or.inl rfl)
  obtain ⟨_, hle, ha2, ht2, _⟩ :=
    transition_checkout_ok rate eq1 loan1 aC t1 false eq2 loan2 h2
  obtain ⟨_, _, hq2, _, _, _, _⟩ :=
    transition_ok_frame rate eq1 loan1 .checkout aC t1 false eq2 loan2 h2
  obtain ⟨_, ha3, _, _, _⟩ :=
    transition_checkin_ok rate eq2 loan2 aR t2 dmg eq3 loan3 h3
  subst heq1
  obtain ⟨h0, hb⟩ := hinv
  rw [ha3, hq2, ha2, ht2]
  omega

/-- A concrete one-unit loan request used in the round-trip witness. -/
def sampleLoanOne : LoanRequest :=
  newLoanRequest "LR-2025-002" 7 1 1 "field measurement" 0 86400

/-- The one-unit loan after staff approval at time 0. -/
def loanApproved1 : LoanRequest :=
  { sampleLoanOne with status := .approved, approved_by := some 3, approved_at := some 0 }

/-- The equipment row after checking out the one-unit loan. -/
def eqBorrowed1 : Equipment :=
  { freshEquipment with status := .borrowed, quantity_available := 0 }

/-- The one-unit loan after checkout at time 0. -/
def loanCheckedOut1 : LoanRequest :=
  { loanApproved1 with status := .checked_out, actual_checkout_date := some 0 }

/-- The equipment row after the late check-in of the one-unit loan. -/
def eqReturned1 : Equipment :=
  { freshEquipment with status := .available, quantity_available := 1 }

/-- The one-unit loan after its late check-in at time 100000 with rate 10:
one day overdue, so the late fee is 10. -/
def loanReturned1 : LoanRequest :=
  { loanCheckedOut1 with status := .returned, late_fee := 10, actual_return_date := some 100000 }

/-- Witness for C6: the concrete approve/checkout/checkin run of the one-unit
loan against the default equipment row restores quantity_available. -/
theorem c6_roundtrip_restores_quantity_witness :
    eqReturned1.quantity_available = freshEquipment.quantity_available :=
  c6_roundtrip_restores_quantity 10 freshEquipment sampleLoanOne sampleStaff
    sampleStaff sampleStudent 0 0 100000 false freshEquipment loanApproved1
    eqBorrowed1 loanCheckedOut1 eqReturned1 loanReturned1 (by decide) rfl rfl rfl rfl

/-- Claim C7: a loan returned after its end date gets a late fee equal to the
configurable rate times the whole-day overage rounded up to the next day
boundary; the fee is written exactly at the returning transition (no other
committed transition touches it), and is never recomputed afterwards because
returned is terminal. -/
theorem c7_late_fee_policy :
    (∀ (rate : Nat) (eq : Equipment) (loan : LoanRequest) (actor : Actor)
      (now : Int) (dmg : Bool) (eq' : Equipment) (loan' : LoanRequest),
      transition rate eq loan .checkin actor now dmg = .ok (eq', loan') →
      loan'.late_fee = rate * daysOverdue loan.requested_end_date now) ∧
    (∀ overage : Nat, 0 < overage →
      overage ≤ secondsPerDay * ceilDays overage ∧
      ∀ m : Nat, overage ≤ secondsPerDay * m → ceilDays overage ≤ m) ∧
    (∀ (rate : Nat) (eq : Equipment) (loan : LoanRequest) (ev : LoanEvent)
      (actor : Actor) (now : Int) (dmg : Bool) (eq' : Equipment) (loan' : LoanRequest),
      ev ≠ .checkin →
      transition rate eq loan ev actor now dmg = .ok (eq', loan') →
      loan'.late_fee = loan.late_fee) ∧
    (∀ (rate : Nat) (eq : Equipment) (loan : LoanRequest) (ev : LoanEvent)
      (actor : Actor) (now : Int) (dmg : Bool),
      loan.status = .returned →
      transition rate eq loan ev actor now dmg = .error .InvalidTransition) := by
  refine ⟨?_, ?_, ?_, ?_⟩
  · intro rate eq loan actor now dmg eq' loan' htr
    obtain ⟨_, _, _, _, hfee⟩ :=
      transition_checkin_ok rate eq loan actor now dmg eq' loan' htr
    simpa [lateFee] using hfee
  · intro overage hpos
    unfold ceilDays secondsPerDay
    refine ⟨by omega, ?_⟩
    intro m hm
    omega
  · intro rate eq loan ev actor now dmg eq' loan' hne htr
    obtain ⟨_, _, _, _, _, hfee, _⟩ :=
      transition_ok_frame rate eq loan ev actor now dmg eq' loan' htr
    exact hfee hne
  · intro rate eq loan ev actor now dmg h
    exact transition_invalid_of_not_validFrom rate eq loan ev actor now dmg
      (validFrom_terminal_false ev loan.status (by rw [h]; rfl))

/-- Witness for C7: the concrete late check-in of the one-unit loan (13600
seconds past its end date) carries a fee of rate 10 times one day. -/
theorem c7_late_fee_policy_witness :
    loanReturned1.late_fee =
      10 * daysOverdue loanCheckedOut1.requested_end_date 100000 :=
  c7_late_fee_policy.1 10 eqBorrowed1 loanCheckedOut1 sampleStudent 100000 false
    eqReturned1 loanReturned1 rfl

/-- Overwrite an optional column when the update supplies a value, keep the
stored value otherwise. -/
def updOpt {α : Type} (new old : Option α) : Option α :=
  match new with
  | some v => some v
  | none => old

/-- The EquipmentUpdate request shape, from src/app/models.py lines 381-396.
Every field is optional; the source list includes status and quantity_total
(and excludes quantity_available).  The JSON specifications column is
omitted. -/
structure EquipmentUpdate where
  name : Option String := none
  description : Option String := none
  brand : Option String := none
  model : Option String := none
  category_id : Option Int := none
  status : Option EquipmentStatus := none
  condition : Option EquipmentCondition := none
  location_in_lab : Option String := none
  usage_instructions : Option String := none
  safety_notes : Option String := none
  max_loan_duration_days : Option Int := none
  requires_training : Option Bool := none
  quantity_total : Option Int := none
  minimum_stock_level : Option Int := none
  deriving DecidableEq, Repr

/-- Modelled from the spec: a request handler applying an EquipmentUpdate —
each supplied field overwrites the stored column, absent fields leave the row
alone.  Only fields present on the EquipmentUpdate shape can be written. -/
def applyEquipmentUpdate (u : EquipmentUpdate) (e : Equipment) : Equipment :=
  { e with
    name := u.name.getD e.name
    description := updOpt u.description e.description
    brand := updOpt u.brand e.brand
    model := updOpt u.model e.model
    category_id := u.category_id.getD e.category_id
    status := u.status.getD e.status
    condition := u.condition.getD e.condition
    location_in_lab := updOpt u.location_in_lab e.location_in_lab
    usage_instructions := updOpt u.usage_instructions e.usage_instructions
    safety_notes := updOpt u.safety_notes e.safety_notes
    max_loan_duration_days := u.max_loan_duration_days.getD e.max_loan_duration_days
    requires_training := u.requires_training.getD e.requires_training
    quantity_total := u.quantity_total.getD e.quantity_total
    minimum_stock_level := u.minimum_stock_level.getD e.minimum_stock_level }

/-- The LoanRequestUpdate request shape, from src/app/models.py lines
410-417: loan status, notes, reasons and conditions; no equipment column. -/
structure LoanRequestUpdate where
  status : Option LoanRequestStatus := none
  approval_notes : Option String := none
  rejected_reason : Option String := none
  checkout_condition : Option EquipmentCondition := none
  return_condition : Option EquipmentCondition := none
  checkout_notes : Option String := none
  return_notes : Option String := none
  deriving DecidableEq, Repr

/-- Modelled from the spec: a request handler applying a LoanRequestUpdate;
each supplied field overwrites the stored column. -/
def applyLoanRequestUpdate (u : LoanRequestUpdate) (l : LoanRequest) : LoanRequest :=
  { l with
    status := u.status.getD l.status
    approval_notes := updOpt u.approval_notes l.approval_notes
    rejected_reason := updOpt u.rejected_reason l.rejected_reason
    checkout_condition := updOpt u.checkout_condition l.checkout_condition
    return_condition := updOpt u.return_condition l.return_condition
    checkout_notes := updOpt u.checkout_notes l.checkout_notes
    return_notes := updOpt u.return_notes l.return_notes }

/-- A concrete update supplying an equipment status and a total quantity. -/
def statusQuantityUpdate : EquipmentUpdate :=
  { status := some .maintenance, quantity_total := some 5 }

/-- Counterexample to C8: the EquipmentUpdate request shape does give direct
write access to the equipment status and to the quantity_total counter — a
handler applying the concrete update changes both on the default row. -/
theorem c8_counterexample :
    (applyEquipmentUpdate statusQuantityUpdate freshEquipment).status = .maintenance ∧
    (applyEquipmentUpdate statusQuantityUpdate freshEquipment).quantity_total = 5 ∧
    freshEquipment.status ≠ .maintenance ∧
    freshEquipment.quantity_total ≠ 5 := by
  refine ⟨rfl, rfl, by decide, by decide⟩

/-- Claim C8 (amended): the request-handler update shapes do expose equipment
status and quantity_total (EquipmentUpdate) and the loan status
(LoanRequestUpdate) to direct writes; only quantity_available is protected —
no update shape can change it, and a loan update touches no quantity or
equipment reference on the loan. -/
theorem c8_no_quantity_available_write :
    (∀ (u : EquipmentUpdate) (e : Equipment),
      (applyEquipmentUpdate u e).quantity_available = e.quantity_available) ∧
    (∀ (u : LoanRequestUpdate) (l : LoanRequest),
      (applyLoanRequestUpdate u l).quantity_requested = l.quantity_requested ∧
      (applyLoanRequestUpdate u l).equipment_id = l.equipment_id ∧
      (applyLoanRequestUpdate u l).late_fee = l.late_fee) :=
  ⟨fun _ _ => rfl, fun _ _ => ⟨rfl, rfl, rfl⟩⟩

/-- An equipment item is in the loanable pool: available with stock on hand
(spec sections 3 and 8). -/
def loanable (e : Equipment) : Prop :=
  e.status = .available ∧ 0 < e.quantity_available

instance (e : Equipment) : Decidable (loanable e) :=
  inferInstanceAs (Decidable (_ ∧ _))

/-- Claim C10: an Equipment row created without explicit values for the
optional columns has status available, condition good and
quantity_available = quantity_total = 1, hence satisfies the ledger
invariant and is immediately in the loanable pool. -/
theorem c10_fresh_equipment_defaults :
    ∀ (name code : String) (cid lid : Int),
      ({ name := name, code := code, category_id := cid, lab_id := lid } : Equipment).status = .available ∧
      ({ name := name, code := code, category_id := cid, lab_id := lid } : Equipment).condition = .good ∧
      ({ name := name, code := code, category_id := cid, lab_id := lid } : Equipment).quantity_available = 1 ∧
      ({ name := name, code := code, category_id := cid, lab_id := lid } : Equipment).quantity_total = 1 ∧
      ledgerInvariant { name := name, code := code, category_id := cid, lab_id := lid } ∧
      loanable { name := name, code := code, category_id := cid, lab_id := lid } := by
  intro name code cid lid
  exact ⟨rfl, rfl, rfl, rfl, ⟨by norm_num, le_refl _⟩, ⟨rfl, by norm_num⟩⟩
